import Mathlib

/-!
Verification of the multi-currency e-wallet core (purses, rate table,
transfer operation) against its specification.

The embedding follows the source modules:
  * `app/constants/currency.py`  — the `Currency` enumeration;
  * `app/constants/rates.py`     — the `Rates` table and `get_rate`;
  * `app/models/purses.py`       — the `Purse` model and its `__init__` checks;
  * `app/models/transactions.py` — the `Transaction` model: `__init__` runs the
    four precondition checks, computes the converted amount, mutates both
    balances and records the transaction;
  * `app/rest/transactions.py`   — `_validate_args`, the REST-level
    precondition checks (these also test the `is_active` flag), and the POST
    flow that validates and then creates the transaction.

Monetary amounts and rates are embedded as rationals; the literal decimal
constants of the source are written as the same decimal literals. Fallible
constructors (`__init__` raising `ValueError`, `abort(400)`) are embedded as
`Except`: every `raise` in the source happens before any mutation, so an
error result carries no state change, exactly as in the code.
-/

namespace EWallet

/-- Currency catalog from `app/constants/currency.py`: the closed set of
supported currency codes. -/
inductive Currency
  | USD
  | EUR
  | GBP
  | UAH
  deriving DecidableEq, Repr, Fintype

/-- String value of each enum member (`Currency.USD.value == "USD"`, etc.). -/
def Currency.value : Currency → String
  | .USD => "USD"
  | .EUR => "EUR"
  | .GBP => "GBP"
  | .UAH => "UAH"

/-- Row `Rates.USD` of `app/constants/rates.py`: rates out of US dollars. -/
def Rates.USD : Currency → ℚ
  | .USD => 1
  | .EUR => 0.95
  | .GBP => 0.84
  | .UAH => 36.76

/-- Row `Rates.EUR` of `app/constants/rates.py`: rates out of euros. -/
def Rates.EUR : Currency → ℚ
  | .USD => 1.05
  | .EUR => 1
  | .GBP => 0.88
  | .UAH => 38.77

/-- Row `Rates.GBP` of `app/constants/rates.py`: rates out of British pounds. -/
def Rates.GBP : Currency → ℚ
  | .USD => 1.20
  | .EUR => 1.13
  | .GBP => 1
  | .UAH => 43.94

/-- Row `Rates.UAH` of `app/constants/rates.py`: rates out of hryvnias. -/
def Rates.UAH : Currency → ℚ
  | .USD => 0.027
  | .EUR => 0.026
  | .GBP => 0.023
  | .UAH => 1

/-- The lookup `Rates.get_rate(currency_from, currency_to)`: selects the row
named after `currency_from` and indexes it by `currency_to`. -/
def Rates.get_rate : Currency → Currency → ℚ
  | .USD, c => Rates.USD c
  | .EUR, c => Rates.EUR c
  | .GBP, c => Rates.GBP c
  | .UAH, c => Rates.UAH c

/-- Raw value of the `currency` keyword argument handed to `Purse.__init__`:
the caller may pass either a plain string or a `Currency` enum member. -/
inductive CurrencyField
  | ofString (s : String)
  | ofEnum (c : Currency)
  deriving DecidableEq, Repr

/-- Python equality between the stored `currency` attribute and one string
element of `[c.value for c in Currency]`: a string compares by contents, and
an `Enum` member is never equal to a plain string. -/
def CurrencyField.pyEqString : CurrencyField → String → Bool
  | .ofString s, t => s == t
  | .ofEnum _, _ => false

/-- Iteration order of the `Currency` enumeration. -/
def currencyMembers : List Currency := [.USD, .EUR, .GBP, .UAH]

/-- The membership test `self.currency in [c.value for c in Currency]` from
`Purse.__init__` (`app/models/purses.py`). -/
def purseCurrencyValid (c : CurrencyField) : Bool :=
  (currencyMembers.map Currency.value).any (fun v => c.pyEqString v)

/-- Validation run by `Purse.__init__`: `User.query.filter_by(id=...).first()`
must find the owner, then the stored currency must be one of the catalog's
string values; each failure raises `ValueError` with the quoted message. -/
def Purse.init (users : List Nat) (user_id : Nat) (currency : CurrencyField) :
    Except String Unit :=
  match users.find? (fun u => u == user_id) with
  | none => .error "User doesn't exist."
  | some _ =>
      if ¬ purseCurrencyValid currency then .error "Currency is not valid."
      else .ok ()

/-- Purse row (`app/models/purses.py`): id, owner, currency, balance and the
logical-deletion flag. -/
structure Purse where
  id : Nat
  user_id : Nat
  currency : Currency
  balance : ℚ
  is_active : Bool
  deriving DecidableEq, Repr

/-- Transaction row (`app/models/transactions.py`): endpoints, snapshotted
currencies and the two amounts. -/
structure Transaction where
  purse_from_id : Nat
  purse_to_id : Nat
  purse_from_currency : Currency
  purse_to_currency : Currency
  purse_from_amount : ℚ
  purse_to_amount : ℚ
  deriving DecidableEq, Repr

/-- Errors raised by `Transaction.__init__`, one per `raise ValueError` site,
in source order. -/
inductive TransferError
  | purseFromDoesntExist
  | purseToDoesntExist
  | samePurse
  | notEnough
  deriving DecidableEq, Repr

/-- Database state visible to the transfer operation: the purse rows and the
transaction rows. -/
structure State where
  purses : List Purse
  transactions : List Transaction
  deriving DecidableEq, Repr

/-- The query `Purse.query.filter_by(id=i).first()`: first purse row whose id
matches. -/
def findPurse (ps : List Purse) (i : Nat) : Option Purse :=
  ps.find? (fun p => p.id == i)

/-- In-place mutation of the balance of the purse row with id `i` (ids are a
primary key, so at most one row matches). -/
def updateBalance (ps : List Purse) (i : Nat) (f : ℚ → ℚ) : List Purse :=
  ps.map (fun p => if p.id == i then { p with balance := f p.balance } else p)

/-- Conversion step of `Transaction.__init__` (lines 107-119): when the two
currencies differ the credited amount is the debited amount times
`Rates.get_rate`, otherwise it is the debited amount unchanged. -/
def convertedAmount (purse_from purse_to : Purse) (purse_from_amount : ℚ) : ℚ :=
  if purse_from.currency ≠ purse_to.currency then
    purse_from_amount * Rates.get_rate purse_from.currency purse_to.currency
  else purse_from_amount

/-- The transaction row assembled by `Transaction.__init__`: endpoints as
given, currencies snapshotted from the two purse rows, the debited amount as
given and the credited amount from the conversion step. -/
def mkTransaction (purse_from_id purse_to_id : Nat) (purse_from purse_to : Purse)
    (purse_from_amount : ℚ) : Transaction :=
  { purse_from_id := purse_from_id
    purse_to_id := purse_to_id
    purse_from_currency := purse_from.currency
    purse_to_currency := purse_to.currency
    purse_from_amount := purse_from_amount
    purse_to_amount := convertedAmount purse_from purse_to purse_from_amount }

/-- The body of `Transaction.__init__` (`app/models/transactions.py`,
lines 79-129): resolve both purses (raising if either query finds nothing),
reject a transfer between one and the same purse row, reject an amount above
the source balance, snapshot the currencies, convert the amount through
`Rates.get_rate` when the currencies differ, debit the source, credit the
destination and record the transaction. Every `raise` precedes the first
mutation, so an error leaves the state untouched. -/
def Transaction.create (s : State) (purse_from_id purse_to_id : Nat)
    (purse_from_amount : ℚ) : Except TransferError (Transaction × State) :=
  match findPurse s.purses purse_from_id with
  | none => .error .purseFromDoesntExist
  | some purse_from =>
    match findPurse s.purses purse_to_id with
    | none => .error .purseToDoesntExist
    | some purse_to =>
      if purse_from = purse_to then .error .samePurse
      else if purse_from.balance < purse_from_amount then .error .notEnough
      else
        let tx : Transaction :=
          mkTransaction purse_from_id purse_to_id purse_from purse_to
            purse_from_amount
        let purses1 := updateBalance s.purses purse_from_id
          (fun b => b - purse_from_amount)
        let purses2 := updateBalance purses1 purse_to_id
          (fun b => b + tx.purse_to_amount)
        .ok (tx, { purses := purses2, transactions := s.transactions ++ [tx] })

/-- Errors produced by `_validate_args` (`app/rest/transactions.py`), one per
`abort(400, ...)` site, in source order. -/
inductive ValidateError
  | purseFromDoesntExist
  | purseToDoesntExist
  | samePurses
  | notEnoughMoney
  deriving DecidableEq, Repr

/-- The REST-layer validation `_validate_args` (`app/rest/transactions.py`,
lines 58-105): aborts when the source purse is missing **or inactive**, when
the destination purse is missing **or inactive**, when the two resolved
purses are the same row, or when the source balance is below the amount; the
checks run in this order and the first failure aborts. -/
def restValidateArgs (s : State) (purse_from_id purse_to_id : Nat)
    (purse_from_amount : ℚ) : Except ValidateError Unit :=
  match findPurse s.purses purse_from_id with
  | none => .error .purseFromDoesntExist
  | some purse_from =>
    if ¬ purse_from.is_active then .error .purseFromDoesntExist
    else
      match findPurse s.purses purse_to_id with
      | none => .error .purseToDoesntExist
      | some purse_to =>
        if ¬ purse_to.is_active then .error .purseToDoesntExist
        else if purse_from = purse_to then .error .samePurses
        else if purse_from.balance < purse_from_amount then .error .notEnoughMoney
        else .ok ()

/-- Error taxonomy of the full REST transfer: a 400 from `_validate_args` or
a `ValueError` from `Transaction.__init__`. -/
inductive RestError
  | validation (e : ValidateError)
  | model (e : TransferError)
  deriving DecidableEq, Repr

/-- The POST flow of `TransactionsListAPI` (`app/rest/transactions.py`,
lines 198-203): `_validate_args` runs first and a failed check aborts the
request before any `Transaction` is constructed. When validation passes, the
handler calls `Transaction()` with **no** keyword arguments, so inside
`Transaction.__init__` the id `self.purse_from_id` is `None`,
`Purse.query.filter_by(id=None).first()` finds no row, and the constructor
raises `ValueError("Purse from doesn't exist.")` before any mutation (the
subsequent `transaction.update(**args)` is never reached, and `Transaction`
defines no `update` method anyway). The POST path of this snapshot therefore
never applies a transfer: after validation it always propagates the model
layer's purse-from error with the state untouched. -/
def restTransfer (s : State) (purse_from_id purse_to_id : Nat)
    (purse_from_amount : ℚ) : Except RestError (Transaction × State) :=
  match restValidateArgs s purse_from_id purse_to_id purse_from_amount with
  | .error e => .error (.validation e)
  | .ok _ => .error (.model .purseFromDoesntExist)

/-- Concrete fixture mirroring the repository's test fixtures: a 1000 USD
purse, a 1000 EUR purse and a second 1000 USD purse, plus an inactive purse. -/
def pUSD : Purse :=
  { id := 1, user_id := 1, currency := .USD, balance := 1000, is_active := true }

/-- Euro purse of the fixture. -/
def pEUR : Purse :=
  { id := 2, user_id := 1, currency := .EUR, balance := 1000, is_active := true }

/-- Second dollar purse of the fixture. -/
def pUSD2 : Purse :=
  { id := 3, user_id := 1, currency := .USD, balance := 1000, is_active := true }

/-- Deactivated purse of the fixture (`is_active = false`). -/
def pOff : Purse :=
  { id := 4, user_id := 1, currency := .GBP, balance := 1000, is_active := false }

/-- Fixture database state. -/
def sEx : State :=
  { purses := [pUSD, pEUR, pUSD2, pOff], transactions := [] }

/-- The transaction produced by transferring 100 from purse 1 (USD) to
purse 2 (EUR) in the fixture state: 100 USD becomes 95 EUR. -/
def txEx : Transaction :=
  { purse_from_id := 1, purse_to_id := 2, purse_from_currency := .USD,
    purse_to_currency := .EUR, purse_from_amount := 100, purse_to_amount := 95 }

/-- Fixture state after that transfer: purse 1 at 900, purse 2 at 1095. -/
def sExAfter : State :=
  { purses := [{ pUSD with balance := 900 }, { pEUR with balance := 1095 },
      pUSD2, pOff],
    transactions := [txEx] }

/-- The transaction produced by the second identical transfer, run from
`sExAfter`. -/
def txEx2 : Transaction := txEx

/-- Fixture state after transferring 100 from purse 1 to purse 2 twice:
purse 1 at 800, purse 2 at 1190, two recorded transactions. -/
def sExAfter2 : State :=
  { purses := [{ pUSD with balance := 800 }, { pEUR with balance := 1190 },
      pUSD2, pOff],
    transactions := [txEx, txEx2] }

/-- The transaction accepted for the negative amount -100 from purse 1 (USD)
to purse 2 (EUR): the converted amount is -95. -/
def txNeg : Transaction :=
  { purse_from_id := 1, purse_to_id := 2, purse_from_currency := .USD,
    purse_to_currency := .EUR, purse_from_amount := -100, purse_to_amount := -95 }

/-- Fixture state after the accepted negative-amount transfer: the source
balance rose to 1100 and the destination fell to 905. -/
def sExNeg : State :=
  { purses := [{ pUSD with balance := 1100 }, { pEUR with balance := 905 },
      pUSD2, pOff],
    transactions := [txNeg] }

end EWallet

namespace EWallet

/-- A purse returned by the id lookup carries the id that was looked up. -/
theorem findPurse_some_id {ps : List Purse} {i : Nat} {p : Purse}
    (h : findPurse ps i = some p) : p.id = i := by
  have hp := List.find?_some h
  simpa using hp

/-- Purse lookup after a balance update: the update is applied pointwise to
the looked-up row when the ids match and leaves it alone otherwise. -/
theorem findPurse_updateBalance (ps : List Purse) (j : Nat) (f : ℚ → ℚ) (i : Nat) :
    findPurse (updateBalance ps j f) i =
      (findPurse ps i).map
        (fun p => if p.id == j then { p with balance := f p.balance } else p) := by
  unfold findPurse updateBalance
  rw [List.find?_map]
  have hp : ((fun q : Purse => q.id == i) ∘
      fun p => if p.id == j then { p with balance := f p.balance } else p) =
      fun p : Purse => p.id == i := by
    funext p
    by_cases h : (p.id == j) = true <;> simp [Function.comp, h]
  rw [hp]

/-- Two successful lookups of distinct purses have distinct ids. -/
theorem findPurse_ne_ids {ps : List Purse} {fid tid : Nat} {pf pt : Purse}
    (hf : findPurse ps fid = some pf) (ht : findPurse ps tid = some pt)
    (hne : pf ≠ pt) : fid ≠ tid := by
  intro h
  apply hne
  rw [h] at hf
  rw [hf] at ht
  exact Option.some.inj ht

/-- Lookup of the two endpoints after the debit-then-credit double update. -/
theorem findPurse_double_update (ps : List Purse) (fid tid : Nat) (f g : ℚ → ℚ)
    (pf pt : Purse) (hf : findPurse ps fid = some pf)
    (ht : findPurse ps tid = some pt) (hid : fid ≠ tid) :
    findPurse (updateBalance (updateBalance ps fid f) tid g) fid
      = some { pf with balance := f pf.balance } ∧
    findPurse (updateBalance (updateBalance ps fid f) tid g) tid
      = some { pt with balance := g pt.balance } := by
  have hpf := findPurse_some_id hf
  have hpt := findPurse_some_id ht
  constructor
  · rw [findPurse_updateBalance, findPurse_updateBalance, hf]
    simp [hpf, hid]
  · rw [findPurse_updateBalance, findPurse_updateBalance, ht]
    simp [hpt, Ne.symm hid]

/-- Success characterization of `Transaction.__init__`: the constructor
returns a transaction exactly when both lookups succeed on distinct rows and
the source balance covers the amount, and then the produced transaction and
state are the ones computed by the body. -/
theorem create_ok_iff (s : State) (fid tid : Nat) (amt : ℚ) (tx : Transaction)
    (s' : State) :
    Transaction.create s fid tid amt = Except.ok (tx, s') ↔
    ∃ pf pt, findPurse s.purses fid = some pf ∧ findPurse s.purses tid = some pt ∧
      pf ≠ pt ∧ ¬ pf.balance < amt ∧
      tx = mkTransaction fid tid pf pt amt ∧
      s' = { purses := updateBalance (updateBalance s.purses fid (fun b => b - amt))
               tid (fun b => b + (mkTransaction fid tid pf pt amt).purse_to_amount),
             transactions := s.transactions ++ [mkTransaction fid tid pf pt amt] } := by
  unfold Transaction.create
  cases hf : findPurse s.purses fid with
  | none => simp
  | some pf0 =>
    cases ht : findPurse s.purses tid with
    | none => simp
    | some pt0 =>
      by_cases hne : pf0 = pt0
      · simp [hne]
      · by_cases hlt : pf0.balance < amt
        · simp [hne, hlt]
        · simp only [if_neg hne, if_neg hlt, Option.some.injEq]
          constructor
          · intro h
            refine ⟨pf0, pt0, rfl, rfl, hne, hlt, ?_⟩
            have := Prod.mk.injEq _ _ _ _ ▸ Except.ok.inj h
            exact ⟨(Prod.ext_iff.mp (Except.ok.inj h)).1.symm,
                   (Prod.ext_iff.mp (Except.ok.inj h)).2.symm⟩
          · rintro ⟨pf, pt, hpf, hpt, hne', hlt', htx, hs⟩
            cases hpf
            cases hpt
            rw [htx, hs]

/-- Concrete run shared by the witnesses: transferring 100 from the 1000 USD
purse to the 1000 EUR purse succeeds with the expected transaction and state. -/
theorem createEx_eq : Transaction.create sEx 1 2 100 = Except.ok (txEx, sExAfter) := by
  simp [Transaction.create, findPurse, updateBalance, mkTransaction, convertedAmount,
    sEx, pUSD, pEUR, pUSD2, pOff, txEx, sExAfter, Rates.get_rate, Rates.USD]
  norm_num

end EWallet

namespace EWallet

/-- C1: for every successful transfer the credited amount is determined by the
currencies: equal currencies copy the debited amount exactly, and different
currencies multiply it by the literal rate-table value
`Rates.get_rate from to`. -/
theorem transfer_converts_amount (s : State) (fid tid : Nat) (amt : ℚ)
    (tx : Transaction) (s' : State)
    (h : Transaction.create s fid tid amt = Except.ok (tx, s')) :
    tx.purse_from_amount = amt ∧
    (tx.purse_from_currency = tx.purse_to_currency →
      tx.purse_to_amount = tx.purse_from_amount) ∧
    (tx.purse_from_currency ≠ tx.purse_to_currency →
      tx.purse_to_amount = tx.purse_from_amount *
        Rates.get_rate tx.purse_from_currency tx.purse_to_currency) := by
  obtain ⟨pf, pt, hf, ht, hne, hlt, htx, hs⟩ := (create_ok_iff s fid tid amt tx s').mp h
  subst htx
  refine ⟨rfl, ?_, ?_⟩
  · intro hcur
    simp only [mkTransaction, convertedAmount] at hcur ⊢
    simp [hcur]
  · intro hcur
    simp only [mkTransaction, convertedAmount] at hcur ⊢
    simp [hcur]

/-- Witness for C1 at the concrete USD-to-EUR run. -/
theorem transfer_converts_amount_witness :
    txEx.purse_from_amount = 100 ∧
    (txEx.purse_from_currency = txEx.purse_to_currency →
      txEx.purse_to_amount = txEx.purse_from_amount) ∧
    (txEx.purse_from_currency ≠ txEx.purse_to_currency →
      txEx.purse_to_amount = txEx.purse_from_amount *
        Rates.get_rate txEx.purse_from_currency txEx.purse_to_currency) :=
  transfer_converts_amount sEx 1 2 100 txEx sExAfter createEx_eq

/-- C2: for every successful transfer the source balance decreases by exactly
the debited amount and the destination balance increases by exactly the
credited amount (the two deltas differ across currencies). -/
theorem transfer_balance_deltas (s : State) (fid tid : Nat) (amt : ℚ)
    (tx : Transaction) (s' : State) (pf pt : Purse)
    (h : Transaction.create s fid tid amt = Except.ok (tx, s'))
    (hf : findPurse s.purses fid = some pf)
    (ht : findPurse s.purses tid = some pt) :
    (findPurse s'.purses fid).map Purse.balance = some (pf.balance - amt) ∧
    (findPurse s'.purses tid).map Purse.balance
      = some (pt.balance + tx.purse_to_amount) := by
  obtain ⟨pf0, pt0, hf0, ht0, hne, hlt, htx, hs⟩ := (create_ok_iff s fid tid amt tx s').mp h
  have hpf : pf0 = pf := by rw [hf0] at hf; exact Option.some.inj hf
  have hpt : pt0 = pt := by rw [ht0] at ht; exact Option.some.inj ht
  subst hpf
  subst hpt
  have hid := findPurse_ne_ids hf0 ht0 hne
  obtain ⟨h1, h2⟩ := findPurse_double_update s.purses fid tid
    (fun b => b - amt) (fun b => b + tx.purse_to_amount) pf0 pt0 hf0 ht0 hid
  subst htx
  subst hs
  exact ⟨by simp [h1], by simp [h2]⟩

/-- Witness for C2 at the concrete USD-to-EUR run. -/
theorem transfer_balance_deltas_witness :
    (findPurse sExAfter.purses 1).map Purse.balance = some (pUSD.balance - 100) ∧
    (findPurse sExAfter.purses 2).map Purse.balance
      = some (pEUR.balance + txEx.purse_to_amount) :=
  transfer_balance_deltas sEx 1 2 100 txEx sExAfter pUSD pEUR createEx_eq rfl rfl

/-- C3: the transfer is atomic with respect to failure: a failing run returns
one of the four named errors and produces no state (so no balance change and
no transaction record escapes), while a successful run applies the debit, the
credit and the record append together. -/
theorem transfer_atomic (s : State) (fid tid : Nat) (amt : ℚ) :
    (∀ e, Transaction.create s fid tid amt = Except.error e →
      e = TransferError.purseFromDoesntExist ∨ e = TransferError.purseToDoesntExist ∨
      e = TransferError.samePurse ∨ e = TransferError.notEnough) ∧
    (∀ tx s', Transaction.create s fid tid amt = Except.ok (tx, s') →
      s'.transactions = s.transactions ++ [tx] ∧
      s'.purses = updateBalance (updateBalance s.purses fid (fun b => b - amt)) tid
        (fun b => b + tx.purse_to_amount)) := by
  constructor
  · intro e _
    cases e
    · exact Or.inl rfl
    · exact Or.inr (Or.inl rfl)
    · exact Or.inr (Or.inr (Or.inl rfl))
    · exact Or.inr (Or.inr (Or.inr rfl))
  · intro tx s' h
    obtain ⟨pf, pt, hf, ht, hne, hlt, htx, hs⟩ :=
      (create_ok_iff s fid tid amt tx s').mp h
    subst htx
    subst hs
    exact ⟨rfl, rfl⟩

/-- Witness for C3 at the concrete USD-to-EUR run. -/
theorem transfer_atomic_witness :
    sExAfter.transactions = sEx.transactions ++ [txEx] ∧
    sExAfter.purses = updateBalance (updateBalance sEx.purses 1 (fun b => b - 100)) 2
      (fun b => b + txEx.purse_to_amount) :=
  (transfer_atomic sEx 1 2 100).2 txEx sExAfter createEx_eq

/-- C4: the REST transfer requires both endpoints to reference existing,
active purses: a missing or inactive source, or a missing or inactive
destination, is rejected with the corresponding not-found error before any
state is produced (so no balance changes). -/
theorem rest_transfer_requires_active (s : State) (fid tid : Nat) (amt : ℚ) :
    (findPurse s.purses fid = none →
      restTransfer s fid tid amt
        = Except.error (RestError.validation ValidateError.purseFromDoesntExist)) ∧
    (∀ pf, findPurse s.purses fid = some pf → pf.is_active = false →
      restTransfer s fid tid amt
        = Except.error (RestError.validation ValidateError.purseFromDoesntExist)) ∧
    (∀ pf, findPurse s.purses fid = some pf → pf.is_active = true →
      findPurse s.purses tid = none →
      restTransfer s fid tid amt
        = Except.error (RestError.validation ValidateError.purseToDoesntExist)) ∧
    (∀ pf pt, findPurse s.purses fid = some pf → pf.is_active = true →
      findPurse s.purses tid = some pt → pt.is_active = false →
      restTransfer s fid tid amt
        = Except.error (RestError.validation ValidateError.purseToDoesntExist)) := by
  refine ⟨fun hf => ?_, fun pf hf ha => ?_, fun pf hf ha ht => ?_,
    fun pf pt hf ha ht hb => ?_⟩ <;>
    simp [restTransfer, restValidateArgs, hf, *]

/-- Witness for C4: the deactivated purse 4 is rejected as source and as
destination in the fixture state. -/
theorem rest_transfer_requires_active_witness :
    restTransfer sEx 4 1 10
      = Except.error (RestError.validation ValidateError.purseFromDoesntExist) ∧
    restTransfer sEx 1 4 10
      = Except.error (RestError.validation ValidateError.purseToDoesntExist) :=
  ⟨(rest_transfer_requires_active sEx 4 1 10).2.1 pOff rfl rfl,
   (rest_transfer_requires_active sEx 1 4 10).2.2.2 pUSD pOff rfl rfl rfl rfl⟩

/-- C5: the four preconditions are checked in the fixed source order, the
first failure determining the error; in particular a self-transfer on an
existing purse always fails with the same-purse error (never the
insufficient-funds error), at the model layer and at the REST layer, for
every amount. -/
theorem precondition_order_self_transfer (s : State) (fid tid : Nat) (amt : ℚ) :
    (findPurse s.purses fid = none →
      Transaction.create s fid tid amt = Except.error TransferError.purseFromDoesntExist) ∧
    (∀ pf, findPurse s.purses fid = some pf → findPurse s.purses tid = none →
      Transaction.create s fid tid amt = Except.error TransferError.purseToDoesntExist) ∧
    (∀ pf, findPurse s.purses fid = some pf →
      Transaction.create s fid fid amt = Except.error TransferError.samePurse) ∧
    (∀ pf pt, findPurse s.purses fid = some pf → findPurse s.purses tid = some pt →
      pf ≠ pt → pf.balance < amt →
      Transaction.create s fid tid amt = Except.error TransferError.notEnough) ∧
    (∀ pf, findPurse s.purses fid = some pf → pf.is_active = true →
      restValidateArgs s fid fid amt = Except.error ValidateError.samePurses) := by
  refine ⟨fun hf => ?_, fun pf hf ht => ?_, fun pf hf => ?_,
    fun pf pt hf ht hne hlt => ?_, fun pf hf ha => ?_⟩
  · simp [Transaction.create, hf]
  · simp [Transaction.create, hf, ht]
  · simp [Transaction.create, hf]
  · simp [Transaction.create, hf, ht, if_neg hne, hlt]
  · simp [restValidateArgs, hf, ha]

/-- Witness for C5: a self-transfer on the existing purse 1 fails with the
same-purse error, for an amount far above the balance, at both layers. -/
theorem precondition_order_self_transfer_witness :
    Transaction.create sEx 1 1 999999 = Except.error TransferError.samePurse ∧
    restValidateArgs sEx 1 1 999999 = Except.error ValidateError.samePurses :=
  ⟨(precondition_order_self_transfer sEx 1 1 999999).2.2.1 pUSD rfl,
   (precondition_order_self_transfer sEx 1 1 999999).2.2.2.2 pUSD rfl rfl⟩

/-- C6: boundary behaviour of the balance check: an amount exactly equal to
the source balance succeeds and leaves the source balance at 0, while an
amount exceeding the balance fails with the insufficient-funds error (and, the
run failing, no state with changed balances is produced). -/
theorem transfer_balance_boundary (s : State) (fid tid : Nat) (amt : ℚ)
    (pf pt : Purse) (hf : findPurse s.purses fid = some pf)
    (ht : findPurse s.purses tid = some pt) (hne : pf ≠ pt) :
    (amt = pf.balance → ∃ tx s', Transaction.create s fid tid amt = Except.ok (tx, s') ∧
      (findPurse s'.purses fid).map Purse.balance = some 0) ∧
    (pf.balance < amt →
      Transaction.create s fid tid amt = Except.error TransferError.notEnough) := by
  constructor
  · intro hamt
    subst hamt
    have hok := (create_ok_iff s fid tid pf.balance (mkTransaction fid tid pf pt pf.balance)
      { purses := updateBalance (updateBalance s.purses fid (fun b => b - pf.balance)) tid
          (fun b => b + (mkTransaction fid tid pf pt pf.balance).purse_to_amount),
        transactions := s.transactions ++ [mkTransaction fid tid pf pt pf.balance] }).mpr
      ⟨pf, pt, hf, ht, hne, lt_irrefl _, rfl, rfl⟩
    refine ⟨_, _, hok, ?_⟩
    have hid := findPurse_ne_ids hf ht hne
    obtain ⟨h1, _⟩ := findPurse_double_update s.purses fid tid (fun b => b - pf.balance)
      (fun b => b + (mkTransaction fid tid pf pt pf.balance).purse_to_amount) pf pt hf ht hid
    rw [h1]
    simp
  · intro hlt
    simp [Transaction.create, hf, ht, if_neg hne, hlt]

/-- Witness for C6: transferring the full 1000 balance of purse 1 succeeds and
zeroes it, and transferring 1001 fails with the insufficient-funds error. -/
theorem transfer_balance_boundary_witness :
    (∃ tx s', Transaction.create sEx 1 2 1000 = Except.ok (tx, s') ∧
      (findPurse s'.purses 1).map Purse.balance = some 0) ∧
    Transaction.create sEx 1 2 1001 = Except.error TransferError.notEnough :=
  ⟨(transfer_balance_boundary sEx 1 2 1000 pUSD pEUR rfl rfl
      (by simp [pUSD, pEUR])).1 rfl,
   (transfer_balance_boundary sEx 1 2 1001 pUSD pEUR rfl rfl
      (by simp [pUSD, pEUR])).2 (by norm_num [pUSD])⟩

/-- C7 counterexample: the transfer model validates no positivity. In the
fixture state (purse 1 at 1000 USD, purse 2 at 1000 EUR) constructing the
transaction with the negative amount -100 — exactly as the model tests build
transactions with kwargs — is accepted, and both balances change: the source
rises to 1100 and the destination falls to 905. -/
theorem transfer_negative_amount_accepted_cex :
    Transaction.create sEx 1 2 (-100) = Except.ok (txNeg, sExNeg) ∧
    (findPurse sEx.purses 1).map Purse.balance = some 1000 ∧
    (findPurse sExNeg.purses 1).map Purse.balance = some 1100 ∧
    (findPurse sExNeg.purses 2).map Purse.balance = some 905 := by
  refine ⟨?_, rfl, rfl, rfl⟩
  simp [Transaction.create, findPurse, updateBalance,
    mkTransaction, convertedAmount, sEx, pUSD, pEUR, pUSD2, pOff, txNeg, sExNeg,
    Rates.get_rate, Rates.USD]
  norm_num

/-- C7 as amended: `Transaction.__init__` performs no positivity check. A
transaction whose amount is zero or negative passes every precondition
whenever the purses exist, are distinct and the source balance is
nonnegative, and the operation is applied: the transaction records the
nonpositive amount and the source balance increases by its magnitude. -/
theorem transfer_nonpositive_amount_applied (s : State) (fid tid : Nat) (amt : ℚ)
    (pf pt : Purse) (hf : findPurse s.purses fid = some pf)
    (ht : findPurse s.purses tid = some pt) (hne : pf ≠ pt)
    (hnp : amt ≤ 0) (hb : 0 ≤ pf.balance) :
    ∃ tx s', Transaction.create s fid tid amt = Except.ok (tx, s') ∧
      tx.purse_from_amount = amt ∧
      (findPurse s'.purses fid).map Purse.balance = some (pf.balance - amt) := by
  have hnl : ¬ pf.balance < amt := not_lt.mpr (hnp.trans hb)
  have hok := (create_ok_iff s fid tid amt (mkTransaction fid tid pf pt amt)
    { purses := updateBalance (updateBalance s.purses fid (fun b => b - amt)) tid
        (fun b => b + (mkTransaction fid tid pf pt amt).purse_to_amount),
      transactions := s.transactions ++ [mkTransaction fid tid pf pt amt] }).mpr
    ⟨pf, pt, hf, ht, hne, hnl, rfl, rfl⟩
  refine ⟨mkTransaction fid tid pf pt amt,
    { purses := updateBalance (updateBalance s.purses fid (fun b => b - amt)) tid
        (fun b => b + (mkTransaction fid tid pf pt amt).purse_to_amount),
      transactions := s.transactions ++ [mkTransaction fid tid pf pt amt] },
    hok, rfl, ?_⟩
  have hid := findPurse_ne_ids hf ht hne
  obtain ⟨h1, _⟩ := findPurse_double_update s.purses fid tid (fun b => b - amt)
    (fun b => b + (mkTransaction fid tid pf pt amt).purse_to_amount) pf pt hf ht hid
  rw [h1]
  rfl

/-- Witness for the amended C7: the accepted -100 transaction raises the
source balance from 1000 to 1000 - (-100). -/
theorem transfer_nonpositive_amount_applied_witness :
    ∃ tx s', Transaction.create sEx 1 2 (-100) = Except.ok (tx, s') ∧
      tx.purse_from_amount = -100 ∧
      (findPurse s'.purses 1).map Purse.balance = some (pUSD.balance - (-100)) :=
  transfer_nonpositive_amount_applied sEx 1 2 (-100) pUSD pEUR rfl rfl
    (by simp [pUSD, pEUR]) (by norm_num) (by norm_num [pUSD])

/-- Concrete second run shared by the witnesses: repeating the 100 USD
transfer from the post-transfer fixture state succeeds again, debiting to 800
and crediting to 1190. -/
theorem createEx2_eq : Transaction.create sExAfter 1 2 100 = Except.ok (txEx2, sExAfter2) := by
  simp [Transaction.create, findPurse, updateBalance, mkTransaction, convertedAmount,
    sExAfter, sExAfter2, pUSD, pEUR, pUSD2, pOff, txEx, txEx2, Rates.get_rate, Rates.USD]
  norm_num

/-- C9: the transfer is not idempotent: two consecutive successful runs with
identical arguments append two transaction records and apply the balance
deltas twice, debiting the source by twice the amount and crediting the
destination by twice the converted amount. -/
theorem transfer_not_idempotent (s : State) (fid tid : Nat) (amt : ℚ)
    (tx1 tx2 : Transaction) (s1 s2 : State) (pf pt : Purse)
    (h1 : Transaction.create s fid tid amt = Except.ok (tx1, s1))
    (h2 : Transaction.create s1 fid tid amt = Except.ok (tx2, s2))
    (hf : findPurse s.purses fid = some pf)
    (ht : findPurse s.purses tid = some pt) :
    s2.transactions = s.transactions ++ [tx1, tx2] ∧
    s2.transactions.length = s.transactions.length + 2 ∧
    tx2.purse_to_amount = tx1.purse_to_amount ∧
    (findPurse s2.purses fid).map Purse.balance = some (pf.balance - 2 * amt) ∧
    (findPurse s2.purses tid).map Purse.balance
      = some (pt.balance + 2 * tx1.purse_to_amount) := by
  obtain ⟨pf0, pt0, hf0, ht0, hne, hnl, htx1, hs1⟩ :=
    (create_ok_iff s fid tid amt tx1 s1).mp h1
  have hpf : pf0 = pf := by rw [hf0] at hf; exact Option.some.inj hf
  have hpt : pt0 = pt := by rw [ht0] at ht; exact Option.some.inj ht
  rw [← hpf, ← hpt]
  have hid := findPurse_ne_ids hf0 ht0 hne
  obtain ⟨h1f, h1t⟩ := findPurse_double_update s.purses fid tid (fun b => b - amt)
    (fun b => b + (mkTransaction fid tid pf0 pt0 amt).purse_to_amount) pf0 pt0 hf0 ht0 hid
  have h1f' : findPurse s1.purses fid
      = some { pf0 with balance := pf0.balance - amt } := by rw [hs1]; exact h1f
  have h1t' : findPurse s1.purses tid
      = some { pt0 with balance :=
          pt0.balance + (mkTransaction fid tid pf0 pt0 amt).purse_to_amount } := by
    rw [hs1]; exact h1t
  obtain ⟨pf1, pt1, hf1, ht1, hne1, hnl1, htx2, hs2⟩ :=
    (create_ok_iff s1 fid tid amt tx2 s2).mp h2
  have hpf1 : pf1 = { pf0 with balance := pf0.balance - amt } := by
    rw [hf1] at h1f'; exact Option.some.inj h1f'
  have hpt1 : pt1 = { pt0 with balance :=
      pt0.balance + (mkTransaction fid tid pf0 pt0 amt).purse_to_amount } := by
    rw [ht1] at h1t'; exact Option.some.inj h1t'
  have hc : (mkTransaction fid tid pf1 pt1 amt).purse_to_amount
      = (mkTransaction fid tid pf0 pt0 amt).purse_to_amount := by
    rw [hpf1, hpt1]
    simp [mkTransaction, convertedAmount]
  have htrans : s2.transactions = s.transactions ++ [tx1, tx2] := by
    rw [hs2]
    simp only [htx2, hs1]
    simp [htx1]
  refine ⟨htrans, by rw [htrans]; simp, ?_, ?_, ?_⟩
  · rw [htx1, htx2, hc]
  · obtain ⟨h2f, _⟩ := findPurse_double_update s1.purses fid tid (fun b => b - amt)
      (fun b => b + (mkTransaction fid tid pf1 pt1 amt).purse_to_amount) pf1 pt1 hf1 ht1 hid
    rw [hs2]
    simp only []
    rw [h2f, hpf1]
    simp only [Option.map_some']
    congr 1
    ring
  · obtain ⟨_, h2t⟩ := findPurse_double_update s1.purses fid tid (fun b => b - amt)
      (fun b => b + (mkTransaction fid tid pf1 pt1 amt).purse_to_amount) pf1 pt1 hf1 ht1 hid
    rw [hs2]
    simp only []
    rw [h2t, hc, hpt1]
    simp only [Option.map_some']
    rw [htx1]
    congr 1
    ring

/-- Witness for C9: running the 100 USD transfer twice from the fixture state
gives two records and balances 800 and 1190. -/
theorem transfer_not_idempotent_witness :
    sExAfter2.transactions = sEx.transactions ++ [txEx, txEx2] ∧
    sExAfter2.transactions.length = sEx.transactions.length + 2 ∧
    txEx2.purse_to_amount = txEx.purse_to_amount ∧
    (findPurse sExAfter2.purses 1).map Purse.balance = some (pUSD.balance - 2 * 100) ∧
    (findPurse sExAfter2.purses 2).map Purse.balance
      = some (pEUR.balance + 2 * txEx.purse_to_amount) :=
  transfer_not_idempotent sEx 1 2 100 txEx txEx2 sExAfter sExAfter2 pUSD pEUR
    createEx_eq createEx2_eq rfl rfl

/-- C10: purse creation accepts the currency only as its string code: for
every catalog currency the string value passes the validity check while the
enum member itself is rejected with the quoted validation error, because the
check compares the stored currency against the list of string values. -/
theorem purse_init_currency_string_only (users : List Nat) (uid : Nat)
    (h : uid ∈ users) (c : Currency) :
    Purse.init users uid (CurrencyField.ofString c.value) = Except.ok () ∧
    Purse.init users uid (CurrencyField.ofEnum c)
      = Except.error "Currency is not valid." := by
  obtain ⟨u, hu⟩ : ∃ u, users.find? (fun x => x == uid) = some u := by
    cases hfind : users.find? (fun x => x == uid) with
    | some u => exact ⟨u, rfl⟩
    | none =>
      exfalso
      have hnone := List.find?_eq_none.mp hfind uid h
      simp at hnone
  constructor
  · cases c <;> simp [Purse.init, hu, purseCurrencyValid, currencyMembers,
      Currency.value, CurrencyField.pyEqString]
  · simp [Purse.init, hu, purseCurrencyValid, currencyMembers,
      CurrencyField.pyEqString]

/-- Witness for C10: with user 1 present, the string "USD" is accepted and
the enum member USD is rejected. -/
theorem purse_init_currency_string_only_witness :
    Purse.init [1] 1 (CurrencyField.ofString Currency.USD.value) = Except.ok () ∧
    Purse.init [1] 1 (CurrencyField.ofEnum Currency.USD)
      = Except.error "Currency is not valid." :=
  purse_init_currency_string_only [1] 1 (by simp) Currency.USD

/-- C8: the rate table is a total function on the four-currency catalog:
`get_rate` is positive on every ordered pair, returns exactly 1 on every
identity pair, and returns the literal hardcoded values on the other pairs
(all twelve cross rates are checked against the source literals). -/
theorem rates_get_rate_total_positive_identity_literal :
    (∀ cf ct : Currency, 0 < Rates.get_rate cf ct) ∧
    (∀ c : Currency, Rates.get_rate c c = 1) ∧
    Rates.get_rate .USD .EUR = 0.95 ∧ Rates.get_rate .USD .GBP = 0.84 ∧
    Rates.get_rate .USD .UAH = 36.76 ∧ Rates.get_rate .EUR .USD = 1.05 ∧
    Rates.get_rate .EUR .GBP = 0.88 ∧ Rates.get_rate .EUR .UAH = 38.77 ∧
    Rates.get_rate .GBP .USD = 1.20 ∧ Rates.get_rate .GBP .EUR = 1.13 ∧
    Rates.get_rate .GBP .UAH = 43.94 ∧ Rates.get_rate .UAH .USD = 0.027 ∧
    Rates.get_rate .UAH .EUR = 0.026 ∧ Rates.get_rate .UAH .GBP = 0.023 := by
  refine ⟨fun cf ct => ?_, fun c => ?_, ?_, ?_, ?_, ?_, ?_, ?_, ?_, ?_, ?_, ?_, ?_, ?_⟩
  · cases cf <;> cases ct <;> norm_num [Rates.get_rate, Rates.USD, Rates.EUR,
      Rates.GBP, Rates.UAH]
  · cases c <;> rfl
  all_goals rfl

end EWallet
